import Mathlib

/-!
Shallow embedding of `src/main.rs` of sol-whale-watch.

The program watches a Solana log stream: the producer loop (main, lines
58-62) drops failed events and sends signatures into a bounded mpsc
channel; `process_transaction` (lines 67-98) looks up the transaction,
derives `diff_lamports = (pre as i64 - post as i64).abs()` from index 0 of
the balance lists, scales to SOL (`/ 1_000_000_000.0`) and, when the amount
exceeds the 0.1 threshold, formats an alert message (`{:.2}` amounts) and
hands it to `send_telegram_alert` (lines 101-144), which returns at once
when `TELEGRAM_TOKEN` or `TELEGRAM_CHAT_ID` is absent.

Modelling choices:
* u64 balances are `Nat`; the `as i64` cast, the i64 subtraction and
  `.abs()` are modelled with exact two's-complement semantics, the checked
  (overflow-panicking) operations returning `Option`.
* The f64 amount is modelled as an exact rational (`sol_amount`).  For the
  alert decision this is outcome-faithful: consecutive representable
  amounts differ by 1e-9 while the f64 rounding error of `diff / 1e9` and
  of the literal `0.1` is below 1e-16, so the strict comparison agrees
  with the exact rational comparison at every integer lamport difference.
* `{:.2}` formatting is modelled by `fmt2` (round half to even at two
  decimal places, as Rust formats the exactly-represented values used
  here).
* Environment access and HTTP are modelled by explicit arguments and by
  returning the list of outbound calls performed.
-/

namespace WhaleWatch

/-- `i64::MIN` as an integer (`-2^63`). -/
def i64Min : Int := -9223372036854775808

/-- `i64::MAX` as an integer (`2^63 - 1`). -/
def i64Max : Int := 9223372036854775807

/-- The value reinterpretation performed by `pre_bal as i64` on a u64
value: two's complement, so values `≥ 2^63` wrap to negatives.  The input
is a `Nat` standing for a u64 (callers quantify below `2^64`). -/
def u64_as_i64 (x : Nat) : Int :=
  if x < 9223372036854775808 then (x : Int) else (x : Int) - 18446744073709551616

/-- Checked i64 subtraction: `none` models the debug-build overflow panic
of `pre_bal as i64 - post_bal as i64`. -/
def checkedSubI64 (a b : Int) : Option Int :=
  if i64Min ≤ a - b ∧ a - b ≤ i64Max then some (a - b) else none

/-- Checked `i64::abs`: `none` models the overflow panic at `i64::MIN`,
otherwise the usual absolute value (written with the sign test `abs` uses). -/
def checkedAbsI64 (x : Int) : Option Int :=
  if x = i64Min then none else some (if x < 0 then -x else x)

/-- Line 77: `let diff_lamports = (pre_bal as i64 - post_bal as i64).abs();`
as a checked computation on the raw u64 balances. -/
def diff_lamports (pre post : Nat) : Option Int :=
  (checkedSubI64 (u64_as_i64 pre) (u64_as_i64 post)).bind checkedAbsI64

/-- Line 78: `let sol_amount = diff_lamports as f64 / 1_000_000_000.0;`,
the f64 value modelled as an exact rational. -/
def sol_amount (diff : Int) : ℚ := (diff : ℚ) / 1000000000

/-- The alert threshold hard-coded at line 81 (`if sol_amount > 0.1`). -/
def ALERT_THRESHOLD : ℚ := 1 / 10

/-- Round half to even to the nearest integer, the rounding Rust fixed
precision formatting applies to the (here exactly represented) value. -/
def round_half_even (q : ℚ) : Int :=
  if q - (⌊q⌋ : ℚ) > 1 / 2 then ⌊q⌋ + 1
  else if q - (⌊q⌋ : ℚ) < 1 / 2 then ⌊q⌋
  else if ⌊q⌋ % 2 = 0 then ⌊q⌋ else ⌊q⌋ + 1

/-- Left-pad a two-digit fraction part with a zero. -/
def pad2 (n : Nat) : String :=
  if n < 10 then "0" ++ toString n else toString n

/-- The `{:.2}` fixed-point rendering of an amount. -/
def fmt2 (q : ℚ) : String :=
  if round_half_even (q * 100) < 0 then
    "-" ++ toString (-round_half_even (q * 100) / 100) ++ "." ++
      pad2 ((-round_half_even (q * 100)) % 100).toNat
  else
    toString (round_half_even (q * 100) / 100) ++ "." ++
      pad2 (round_half_even (q * 100) % 100).toNat

/-- The alert message built by the `format!` at lines 82-86. -/
def whale_msg (sol : ℚ) (signature_str : String) (pre_bal post_bal : Nat) : String :=
  "🐋 <b>巨鲸警报!</b>\n\n💰 <b>金额:</b> " ++ fmt2 sol ++
    " SOL\n🔗 <a href=\"https://solscan.io/tx/" ++ signature_str ++
    "\">查看交易详情</a>\n📉 余额变化: " ++ fmt2 ((pre_bal : ℚ) / 1000000000) ++
    " -> " ++ fmt2 ((post_bal : ℚ) / 1000000000)

/-- The balance metadata of a fetched transaction (`meta.pre_balances`,
`meta.post_balances`), u64 lamport values as `Nat`. -/
structure TransactionMeta where
  pre_balances : List Nat
  post_balances : List Nat
deriving DecidableEq

/-- The RPC result body: `tx.transaction.meta` may be absent. -/
structure TransactionDetail where
  meta : Option TransactionMeta
deriving DecidableEq

/-- Outcome of `client.get_transaction`: `ok` with a detail, or any error
(not-found for unindexed signatures, transport failures, ...). -/
inductive LookupResult where
  | ok (tx : TransactionDetail)
  | err (e : String)
deriving DecidableEq

/-- What one run of `process_transaction` does: return `Ok(())` having
handed the listed messages to `send_telegram_alert`, or panic (only
possible at an arithmetic overflow in a debug build). -/
inductive TaskOutcome where
  | ok (alerts : List String)
  | panic
deriving DecidableEq

/-- Lines 67-98, `process_transaction`, with the signature already parsed
and the RPC call result passed in.  Mirrors the source: an `Err` lookup is
skipped (`if let Ok`), a missing `meta` is skipped (`if let Some`), empty
balance lists return `Ok(())` at line 73, otherwise index 0 of each list
is taken, the lamport difference and SOL amount are computed, and an alert
is dispatched exactly when the amount strictly exceeds the threshold. -/
def process_transaction (signature_str : String) (lookup : LookupResult) : TaskOutcome :=
  match lookup with
  | .err _ => .ok []
  | .ok tx =>
    match tx.meta with
    | none => .ok []
    | some meta =>
      if meta.pre_balances.length = 0 ∨ meta.post_balances.length = 0 then .ok []
      else
        match diff_lamports (meta.pre_balances.getD 0 0) (meta.post_balances.getD 0 0) with
        | none => .panic
        | some diff =>
          if sol_amount diff > ALERT_THRESHOLD then
            .ok [whale_msg (sol_amount diff) signature_str
                  (meta.pre_balances.getD 0 0) (meta.post_balances.getD 0 0)]
          else
            .ok []

/-- One streamed log notification (`response.value` at line 59): an error
field that is `some` when the transaction failed, and its signature. -/
structure LogsValue where
  err : Option String
  signature : String
deriving DecidableEq

/-- The body of the producer loop, lines 58-62: the signatures this
iteration sends into the channel.  A failed event
(`if logs.err.is_some() \x7b continue; \x7d`) sends nothing. -/
def producer_step (logs : LogsValue) : List String :=
  if logs.err.isSome then [] else [logs.signature]

/-- The optional Telegram credentials read from the environment at lines
102-109. -/
structure TelegramEnv where
  token : Option String
  chat_id : Option String
deriving DecidableEq

/-- One outbound HTTP POST to the notification sink. -/
structure OutboundCall where
  url : String
  chat_id : String
  text : String
deriving DecidableEq

/-- Lines 101-144, `send_telegram_alert`: returns the outbound calls
performed.  A missing `TELEGRAM_TOKEN` or a missing `TELEGRAM_CHAT_ID`
each returns immediately with no call; otherwise exactly one POST is
attempted (its response handling only logs, so it is not modelled). -/
def send_telegram_alert (env : TelegramEnv) (message : String) : List OutboundCall :=
  match env.token with
  | none => []
  | some token =>
    match env.chat_id with
    | none => []
    | some chat_id =>
      [⟨"https://api.telegram.org/bot" ++ token ++ "/sendMessage", chat_id, message⟩]

/-- Modelled from the spec: the BoundedQueue of §4.2 is the external
`tokio::sync::mpsc` bounded channel created at line 27 (capacity 100) and
is not part of this repository's sources.  State of such a queue: its
capacity, the FIFO buffer (front at the head), and the suspended senders
waiting, in order, each with the item it is trying to enqueue. -/
structure QueueState (α : Type) where
  cap : Nat
  buf : List α
  waiting : List α
deriving DecidableEq

/-- Modelled from the spec: `enqueue` appends to the buffer when a slot is
free (and no earlier sender is still waiting); otherwise the caller
suspends, its item retained in the waiting line — never dropped. -/
def enqueue {α : Type} [DecidableEq α] (s : QueueState α) (x : α) : QueueState α :=
  if s.buf.length < s.cap ∧ s.waiting = [] then { s with buf := s.buf ++ [x] }
  else { s with waiting := s.waiting ++ [x] }

/-- Modelled from the spec: `dequeue` pops the front of the buffer; the
freed slot immediately admits the longest-waiting suspended sender, whose
item moves into the buffer. -/
def dequeue {α : Type} (s : QueueState α) : Option α × QueueState α :=
  match s.buf with
  | [] => (none, s)
  | y :: rest =>
    match s.waiting with
    | [] => (some y, { s with buf := rest })
    | w :: ws => (some y, { s with buf := rest ++ [w], waiting := ws })

/-- All items held by the queue, buffered or pending with a suspended
sender. -/
def items {α : Type} (s : QueueState α) : List α := s.buf ++ s.waiting

/-! ### Helper lemmas -/

/-- Rounding an integer-valued rational is the identity. -/
theorem round_half_even_intCast (m : Int) : round_half_even (m : ℚ) = m := by
  unfold round_half_even
  rw [Int.floor_intCast]
  norm_num

/-- Evaluate `fmt2` once the scaled value is a known nonnegative integer. -/
theorem fmt2_of_scaled (q : ℚ) (m : Int) (h : q * 100 = (m : ℚ)) (hm : 0 ≤ m) :
    fmt2 q = toString (m / 100) ++ "." ++ pad2 (m % 100).toNat := by
  unfold fmt2
  rw [h, round_half_even_intCast]
  rw [if_neg (by omega)]

/-- Evaluate `process_transaction` on a present, well-formed detail: the
outcome is decided by comparing the amount to the threshold. -/
theorem process_eval (sig : String) (m : TransactionMeta)
    (h1 : m.pre_balances ≠ []) (h2 : m.post_balances ≠ [])
    (diff : Int)
    (hd : diff_lamports (m.pre_balances.getD 0 0) (m.post_balances.getD 0 0) = some diff) :
    process_transaction sig (.ok ⟨some m⟩) =
      if sol_amount diff > ALERT_THRESHOLD then
        .ok [whale_msg (sol_amount diff) sig (m.pre_balances.getD 0 0) (m.post_balances.getD 0 0)]
      else .ok [] := by
  simp only [process_transaction]
  rw [if_neg (by simp [List.length_eq_zero, h1, h2]), hd]

/-! ### Claims -/

/-- Claim C1: with both balance lists non-empty and the lamport difference
computed without overflow, `process_transaction` dispatches exactly one
alert precisely when the SOL amount strictly exceeds the threshold, and
dispatches nothing otherwise — in particular an amount exactly equal to
the threshold dispatches nothing, since equality excludes the strict
inequality. -/
theorem qualification_strict (sig : String) (m : TransactionMeta)
    (h1 : m.pre_balances ≠ []) (h2 : m.post_balances ≠ [])
    (diff : Int)
    (hd : diff_lamports (m.pre_balances.getD 0 0) (m.post_balances.getD 0 0) = some diff) :
    (process_transaction sig (.ok ⟨some m⟩) =
        .ok [whale_msg (sol_amount diff) sig (m.pre_balances.getD 0 0) (m.post_balances.getD 0 0)]
      ↔ sol_amount diff > ALERT_THRESHOLD)
    ∧ (process_transaction sig (.ok ⟨some m⟩) = .ok [] ↔ ¬ sol_amount diff > ALERT_THRESHOLD) := by
  rw [process_eval sig m h1 h2 diff hd]
  by_cases hq : sol_amount diff > ALERT_THRESHOLD
  · rw [if_pos hq]
    simp [hq]
  · rw [if_neg hq]
    simp [hq]

/-- Witness for C1 at the boundary: difference `100_000_000` lamports is
exactly the 0.1 SOL threshold, so no alert is dispatched. -/
theorem qualification_strict_witness :
    (process_transaction "t" (.ok ⟨some ⟨[100000000], [0]⟩⟩) =
        .ok [whale_msg (sol_amount 100000000) "t" 100000000 0]
      ↔ sol_amount 100000000 > ALERT_THRESHOLD)
    ∧ (process_transaction "t" (.ok ⟨some ⟨[100000000], [0]⟩⟩) = .ok []
      ↔ ¬ sol_amount 100000000 > ALERT_THRESHOLD) :=
  qualification_strict "t" ⟨[100000000], [0]⟩ (by decide) (by decide) 100000000 (by decide)

/-- Claim C2: with threshold 0.1, balances 1_000_000_000 → 800_000_000
yield the amount 0.2 SOL and exactly one dispatched alert whose message
renders that amount as "0.20" (and the pre/post balances as 1.00 and
0.80). -/
theorem whale_alert_example :
    sol_amount 200000000 = 2 / 10
    ∧ fmt2 (sol_amount 200000000) = "0.20"
    ∧ process_transaction "SIG" (.ok ⟨some ⟨[1000000000], [800000000]⟩⟩) =
        .ok ["🐋 <b>巨鲸警报!</b>\n\n💰 <b>金额:</b> 0.20 SOL\n🔗 <a href=\"https://solscan.io/tx/SIG\">查看交易详情</a>\n📉 余额变化: 1.00 -> 0.80"] := by
  have hsol : sol_amount 200000000 = 2 / 10 := by
    unfold sol_amount; norm_num
  have hf : fmt2 (sol_amount 200000000) = "0.20" := by
    rw [fmt2_of_scaled (sol_amount 200000000) 20 (by rw [hsol]; norm_num) (by omega)]
    decide
  have hpre : fmt2 ((1000000000 : ℚ) / 1000000000) = "1.00" := by
    rw [fmt2_of_scaled ((1000000000 : ℚ) / 1000000000) 100 (by norm_num) (by omega)]
    decide
  have hpost : fmt2 ((800000000 : ℚ) / 1000000000) = "0.80" := by
    rw [fmt2_of_scaled ((800000000 : ℚ) / 1000000000) 80 (by norm_num) (by omega)]
    decide
  refine ⟨hsol, hf, ?_⟩
  rw [process_eval "SIG" ⟨[1000000000], [800000000]⟩ (by decide) (by decide) 200000000 (by decide)]
  rw [if_pos (by rw [hsol]; unfold ALERT_THRESHOLD; norm_num)]
  rw [show (([1000000000] : List Nat).getD 0 0) = 1000000000 from rfl,
      show (([800000000] : List Nat).getD 0 0) = 800000000 from rfl]
  unfold whale_msg
  rw [hf]
  rw [show ((1000000000 : Nat) : ℚ) = (1000000000 : ℚ) from by norm_num,
      show ((800000000 : Nat) : ℚ) = (800000000 : ℚ) from by norm_num]
  rw [hpre, hpost]
  rfl

/-- Claim C3: a fetched transaction whose pre- or post-balance list is
empty is silently discarded at line 73 — `process_transaction` returns
`Ok(())` with no alert dispatched and no error raised. -/
theorem empty_balances_discarded (sig : String) (m : TransactionMeta)
    (h : m.pre_balances = [] ∨ m.post_balances = []) :
    process_transaction sig (.ok ⟨some m⟩) = .ok [] := by
  simp only [process_transaction]
  rcases h with h | h <;> simp [h]

/-- Witness for C3: an empty pre-balance list is discarded. -/
theorem empty_balances_discarded_witness :
    (([] : List Nat) = [] ∨ ([5] : List Nat) = [])
    ∧ process_transaction "t" (.ok ⟨some ⟨[], [5]⟩⟩) = .ok [] :=
  ⟨Or.inl rfl, empty_balances_discarded "t" ⟨[], [5]⟩ (Or.inl rfl)⟩

/-- Claim C4: a streamed event carrying an error (a failed transaction) is
skipped by the producer loop at line 60; its signature is never sent into
the channel. -/
theorem failed_event_not_enqueued (logs : LogsValue) (h : logs.err.isSome = true) :
    producer_step logs = [] := by
  simp [producer_step, h]

/-- Witness for C4: a concrete failed event enqueues nothing. -/
theorem failed_event_not_enqueued_witness :
    (LogsValue.mk (some "e") "sig").err.isSome = true
    ∧ producer_step ⟨some "e", "sig"⟩ = [] :=
  ⟨rfl, failed_event_not_enqueued ⟨some "e", "sig"⟩ rfl⟩

/-- Claim C5: with neither credential configured, `send_telegram_alert`
returns at its first early return for every message: zero outbound calls,
no panic. -/
theorem no_credentials_no_outbound (msg : String) :
    send_telegram_alert ⟨none, none⟩ msg = [] := rfl

/-- Claim C6: an `Err` from the lookup (not-found included) makes
`process_transaction` skip the whole body (`if let Ok`): it returns
`Ok(())` with zero dispatched alerts, so nothing escalates past the
per-event task. -/
theorem lookup_err_silent (sig e : String) :
    process_transaction sig (.err e) = .ok [] := rfl

/-- Claim C7: the lamport difference (hence the SOL amount) is symmetric
in the two balances, overflow cases included: swapping `pre` and `post`
yields the same checked result, as at `(5, 3)` versus `(3, 5)`. -/
theorem diff_lamports_symm (pre post : Nat) :
    diff_lamports pre post = diff_lamports post pre
    ∧ Option.map sol_amount (diff_lamports pre post)
      = Option.map sol_amount (diff_lamports post pre) := by
  have key : diff_lamports pre post = diff_lamports post pre := by
    unfold diff_lamports checkedSubI64 checkedAbsI64 i64Min i64Max
    generalize u64_as_i64 pre = a
    generalize u64_as_i64 post = b
    by_cases h1 : (-9223372036854775808 : Int) ≤ a - b ∧ a - b ≤ 9223372036854775807
    · by_cases h2 : (-9223372036854775808 : Int) ≤ b - a ∧ b - a ≤ 9223372036854775807
      · rw [if_pos h1, if_pos h2]
        simp only [Option.some_bind]
        have h3 : a - b ≠ -9223372036854775808 := by omega
        have h4 : b - a ≠ -9223372036854775808 := by omega
        rw [if_neg h3, if_neg h4]
        split_ifs <;> (congr 1; omega)
      · rw [if_pos h1, if_neg h2]
        simp only [Option.some_bind, Option.none_bind]
        have h3 : a - b = -9223372036854775808 := by omega
        rw [if_pos h3]
    · by_cases h2 : (-9223372036854775808 : Int) ≤ b - a ∧ b - a ≤ 9223372036854775807
      · rw [if_neg h1, if_pos h2]
        simp only [Option.some_bind, Option.none_bind]
        have h3 : b - a = -9223372036854775808 := by omega
        rw [if_pos h3]
      · rw [if_neg h1, if_neg h2]
  exact ⟨key, by rw [key]⟩

/-- Claim C8 (modelled from the spec: the queue is the external
`tokio::sync::mpsc` channel, not in this repository's sources): at
capacity 2 with two items buffered and no consumer draining, enqueuing a
third item suspends the sender and retains the item; one dequeue frees a
slot and the third item enters the buffer — it is never dropped.  The
final conjunct states the no-loss property for every queue state. -/
theorem bounded_queue_no_drop :
    (enqueue (⟨2, ["a", "b"], []⟩ : QueueState String) "c"
      = ⟨2, ["a", "b"], ["c"]⟩)
    ∧ "c" ∈ items (enqueue (⟨2, ["a", "b"], []⟩ : QueueState String) "c")
    ∧ dequeue (enqueue (⟨2, ["a", "b"], []⟩ : QueueState String) "c")
      = (some "a", ⟨2, ["b", "c"], []⟩)
    ∧ ∀ (s : QueueState String) (x : String), x ∈ items (enqueue s x) := by
  refine ⟨by decide, by decide, by decide, ?_⟩
  intro s x
  unfold enqueue items
  split_ifs <;> simp

/-- Claim C9: the two credentials are checked independently, `chat_id`
after `token`: a configured token with an absent chat id still returns at
the second early return — zero outbound calls, no error. -/
theorem partial_credentials_no_outbound (token msg : String) :
    send_telegram_alert ⟨some token, none⟩ msg = [] := rfl

/-- Claim C10: when both balances are below `2^63`, the cast is
value-preserving, and subtraction and `abs` neither wrap nor panic: the
checked pipeline returns exactly `abs (pre - post)`. -/
theorem diff_lamports_exact (pre post : Nat) (h1 : pre < 2 ^ 63) (h2 : post < 2 ^ 63) :
    u64_as_i64 pre = (pre : Int) ∧ u64_as_i64 post = (post : Int)
    ∧ diff_lamports pre post = some |(pre : Int) - (post : Int)| := by
  have hp : (2 : Nat) ^ 63 = 9223372036854775808 := by norm_num
  rw [hp] at h1 h2
  have ha : u64_as_i64 pre = (pre : Int) := by
    unfold u64_as_i64; rw [if_pos h1]
  have hb : u64_as_i64 post = (post : Int) := by
    unfold u64_as_i64; rw [if_pos h2]
  refine ⟨ha, hb, ?_⟩
  unfold diff_lamports checkedSubI64 checkedAbsI64 i64Min i64Max
  rw [ha, hb]
  rw [if_pos (by omega)]
  simp only [Option.some_bind]
  rw [if_neg (by omega)]
  by_cases hneg : (pre : Int) - (post : Int) < 0
  · rw [if_pos hneg, abs_of_neg hneg]
  · rw [if_neg hneg, abs_of_nonneg (le_of_not_lt hneg)]

/-- Witness for C10 at `(pre, post) = (5, 3)`. -/
theorem diff_lamports_exact_witness :
    (5 : Nat) < 2 ^ 63 ∧ (3 : Nat) < 2 ^ 63 ∧ diff_lamports 5 3 = some 2 := by
  refine ⟨by norm_num, by norm_num, ?_⟩
  have h := (diff_lamports_exact 5 3 (by norm_num) (by norm_num)).2.2
  have h2 : |((5 : Nat) : Int) - ((3 : Nat) : Int)| = 2 := by
    rw [show ((5 : Nat) : Int) - ((3 : Nat) : Int) = 2 from by norm_num]
    exact abs_of_nonneg (by norm_num)
  rw [h2] at h
  exact h

end WhaleWatch
